import Mathlib

/-!
The module `scripts/lib/build_database_util.js`.

A shallow embedding of the xTuple database build utilities
(`getRegistrationSql`, `composeExtensionSql`, `explodeManifest`, `initDatabase`,
`sendToDatabase`, `unregister`) together with the properties established about them.

Callbacks are modelled by the value handed to them; the file system, the database
client, the child processes and the transform registry are explicit parameters.
-/

namespace BuildDatabaseUtil

/-! ## JavaScript values -/

/-- The JavaScript values the descriptors, credentials and build specs carry. -/
inductive JsVal where
  | undefined : JsVal
  | str (s : String) : JsVal
  | num (n : Int) : JsVal
  deriving DecidableEq, Repr

/-- JavaScript truthiness: `undefined`, the empty string and `0` are falsy. -/
def JsVal.truthy : JsVal → Bool
  | .undefined => false
  | .str s => s != ""
  | .num n => n != 0

/-- The JavaScript `a || b`. -/
def JsVal.or (a b : JsVal) : JsVal :=
  if a.truthy then a else b

/-- String conversion as done by `"text" + value`. -/
def JsVal.toStr : JsVal → String
  | .undefined => "undefined"
  | .str s => s
  | .num n => toString n

/-! ## Positional templates -/

/-- What a template argument is replaced with: a missing argument leaves nothing. -/
def fmtArg : JsVal → String
  | .undefined => ""
  | .str s => s
  | .num n => toString n

/-- Walks the template, replacing every `%@` by the next argument. -/
def formatChars : List Char → List JsVal → List Char
  | [], _ => []
  | [c], _ => [c]
  | c :: d :: rest, args =>
    if c = '%' ∧ d = '@' then
      match args with
      | [] => formatChars rest []
      | a :: as => (fmtArg a).data ++ formatChars rest as
    else c :: formatChars (d :: rest) args

/-- Modelled from the spec: `String.prototype.f`, the template helper of the xTuple
foundation library, is not among the sources. The spec describes it as "a fixed
positional-placeholder templating convention (`%@` substituted in order, no escaping)". -/
def String.f (template : String) (args : List JsVal) : String :=
  ⟨formatChars template.data args⟩

/-! ## Descriptors and manifests -/

/-- An entry of `databaseScripts`: a relative path or a nested list of entries. -/
inductive ScriptEntry where
  | path (p : String) : ScriptEntry
  | list (entries : List ScriptEntry) : ScriptEntry

/-- The fields read from a parsed `package.json` or `manifest.js`. -/
structure Descriptor where
  name : JsVal
  description : JsVal
  comment : JsVal
  loadOrder : JsVal
  dependencies : Option (List String)
  defaultSchema : JsVal
  databaseScripts : Option (List ScriptEntry)

mutual
/-- Deep flattening of one entry. -/
def ScriptEntry.flatten : ScriptEntry → List String
  | .path p => [p]
  | .list entries => flatten entries
/-- The `_.flatten` of underscore: all paths of a nested array, in order. -/
def flatten : List ScriptEntry → List String
  | [] => []
  | entry :: entries => entry.flatten ++ flatten entries
end

mutual
/-- The text of an entry when it is appended to a string. -/
def ScriptEntry.toStr : ScriptEntry → String
  | .path p => p
  | .list entries => arrayToString entries
/-- The method `Array.prototype.toString`: the elements separated by commas. -/
def arrayToString : List ScriptEntry → String
  | [] => ""
  | entry :: entries =>
    match entries with
    | [] => entry.toStr
    | _ :: _ => entry.toStr ++ "," ++ arrayToString entries
end

/-! ## The `path` module (POSIX) -/

namespace path

/-- Splits at every `/`. -/
def splitSlash : List Char → List (List Char)
  | [] => [[]]
  | c :: cs =>
    if c = '/' then [] :: splitSlash cs
    else
      match splitSlash cs with
      | [] => [[c]]
      | seg :: segs => (c :: seg) :: segs

/-- Resolves `.` and `..` segments; `res` holds the kept segments, last one first. -/
def normalizeSegments (allowAboveRoot : Bool) : List (List Char) → List (List Char) → List (List Char)
  | [], res => res.reverse
  | seg :: segs, res =>
    if seg = [] ∨ seg = ['.'] then normalizeSegments allowAboveRoot segs res
    else if seg = ['.', '.'] then
      match res with
      | [] =>
        normalizeSegments allowAboveRoot segs (if allowAboveRoot then [seg] else [])
      | last :: before =>
        if last = ['.', '.'] then
          normalizeSegments allowAboveRoot segs (if allowAboveRoot then seg :: res else res)
        else normalizeSegments allowAboveRoot segs before
    else normalizeSegments allowAboveRoot segs (seg :: res)

/-- Joins segments with `/`. -/
def joinSegments : List (List Char) → List Char
  | [] => []
  | [seg] => seg
  | seg :: seg2 :: segs => seg ++ '/' :: joinSegments (seg2 :: segs)

/-- The function `path.normalize`. -/
def normalize (p : String) : String :=
  if p.data = [] then "."
  else
    let isAbsolute := p.data.head? = some '/'
    let trailingSeparator := p.data.getLast? = some '/'
    let body := joinSegments (normalizeSegments (!isAbsolute) (splitSlash p.data) [])
    if body = [] then
      if isAbsolute then "/" else if trailingSeparator then "./" else "."
    else
      let body := if trailingSeparator then body ++ ['/'] else body
      if isAbsolute then ⟨'/' :: body⟩ else ⟨body⟩

/-- The function `path.join`. -/
def join (parts : List String) : String :=
  let joined := joinSegments ((parts.filter (fun part => part.data ≠ [])).map String.data)
  if joined = [] then "." else normalize ⟨joined⟩

/-- The function `path.resolve`, from the working directory `cwd` (an absolute path). -/
def resolve (cwd : String) (parts : List String) : String :=
  let full := parts.foldl
    (fun acc part =>
      if part.data = [] then acc
      else if part.data.head? = some '/' then part.data
      else acc ++ '/' :: part.data)
    cwd.data
  ⟨'/' :: joinSegments (normalizeSegments false (splitSlash full) [])⟩

/-- The function `path.basename` with one argument. -/
def basename (p : String) : String :=
  ⟨((p.data.reverse.dropWhile (fun c => c = '/')).takeWhile (fun c => c ≠ '/')).reverse⟩

/-- The function `path.dirname`. -/
def dirname (p : String) : String :=
  match p.data with
  | [] => "."
  | first :: rest =>
    let hasRoot := first = '/'
    match ((rest.reverse.dropWhile (fun c => c = '/')).dropWhile (fun c => c ≠ '/')) with
    | [] => if hasRoot then "/" else "."
    | _ :: before =>
      if hasRoot ∧ before = [] then "//" else ⟨first :: before.reverse⟩

/-- The function `path.extname`. -/
def extname (p : String) : String :=
  let base := (basename p).data
  match base.reverse.dropWhile (fun c => c ≠ '.') with
  | [] => ""
  | _ :: before =>
    if before = [] ∨ base = ['.', '.'] then ""
    else ⟨'.' :: (base.reverse.takeWhile (fun c => c ≠ '.')).reverse⟩

end path

/-! ## String helpers of the language -/

/-- The `WhiteSpace` and `LineTerminator` code points removed by `String.prototype.trim`. -/
def isJsWhitespace (c : Char) : Bool :=
  let n := c.toNat
  n = 0x09 || n = 0x0A || n = 0x0B || n = 0x0C || n = 0x0D || n = 0x20 || n = 0xA0 ||
  n = 0x1680 || (0x2000 ≤ n && n ≤ 0x200A) || n = 0x2028 || n = 0x2029 || n = 0x202F ||
  n = 0x205F || n = 0x3000 || n = 0xFEFF

/-- The method `String.prototype.trim`. -/
def jsTrim (s : String) : String :=
  ⟨((s.data.dropWhile isJsWhitespace).reverse.dropWhile isJsWhitespace).reverse⟩

/-- The test `s.charAt(s.length - 1) === c`. -/
def lastCharIs (s : String) (c : Char) : Bool :=
  s.data.getLast? = some c

/-- The method `s.substring(1)`. -/
def substring1 (s : String) : String :=
  ⟨s.data.drop 1⟩

/-- Whether `needle` occurs at the start of `hay`. -/
def startsWithChars : List Char → List Char → Bool
  | [], _ => true
  | _ :: _, [] => false
  | n :: ns, h :: hs => n = h && startsWithChars ns hs

/-- Whether `needle` occurs somewhere in `hay`. -/
def containsChars (needle : List Char) : List Char → Bool
  | [] => startsWithChars needle []
  | h :: hs => startsWithChars needle (h :: hs) || containsChars needle hs

/-- The test `s.indexOf(needle) < 0`. -/
def indexOfNegative (s needle : String) : Bool :=
  !containsChars needle.data s.data

/-! ## getRegistrationSql -/

/-- The `register_extension` statement of `getRegistrationSql`. -/
def registerExtensionSql (options : Descriptor) (extensionLocation : JsVal) : String :=
  String.f "select xt.register_extension('%@', '%@', '%@', '', %@);\n"
    [options.name, options.description.or options.comment, extensionLocation,
      options.loadOrder.or (.num 9999)]

/-- The `grant_role_ext` statement for one extension name. -/
def grantRoleExtSql (name : JsVal) : String :=
  String.f "select xt.grant_role_ext('ADMIN', '%@');\n" [name]

/-- The `register_extension_dependency` statement for one dependency. -/
def dependencySql (name : JsVal) (dependency : String) : String :=
  String.f "select xt.register_extension_dependency('%@', '%@');\n" [name, .str dependency]

/-- The notice text first assigned to `registerSql`. -/
def registerNoticeSql (options : Descriptor) : String :=
  "do $$ plv8.elog(NOTICE, \"About to register extension " ++ options.name.toStr ++
    "\"); $$ language plv8;\n"

/-- Register extension and dependencies. -/
def getRegistrationSql (options : Descriptor) (extensionLocation : JsVal) : String :=
  let _registerSql := registerNoticeSql options
  let registerSql := registerExtensionSql options extensionLocation
  let grantExtToAdmin := grantRoleExtSql options.name
  let registerSql := grantExtToAdmin ++ registerSql
  let dependencies := options.dependencies.getD []
  dependencies.foldl
    (fun registerSql dependency =>
      let dependencySql := dependencySql options.name dependency
      let grantDependToAdmin := grantRoleExtSql (.str dependency)
      dependencySql ++ grantDependToAdmin ++ registerSql)
    registerSql

/-! ## The environment -/

/-- What the file system holds at a path. -/
inductive FileState where
  | missing : FileState
  | unreadable (err : String) : FileState
  | content (text : String) : FileState

/-- The result of `JSON.parse` followed by the property reads made on it. -/
inductive Parsed where
  | invalid : Parsed
  | null : Parsed
  | value (d : Descriptor) : Parsed

/-- The transform of one file format: `(text, path, defaultSchema) -> sql`. -/
abbrev Transform := String → String → JsVal → String

/-- Everything the module reads from outside: the file system, the module directory
`__dirname`, the working directory, `JSON.parse` and the transform registry
`conversionMap` of `./util/convert_specialized`. -/
structure World where
  files : String → FileState
  __dirname : String
  cwd : String
  parseJson : String → Parsed
  conversionMap : String → Option Transform

/-- The function `fs.existsSync`. -/
def World.existsSync (w : World) (p : String) : Bool :=
  match w.files p with
  | .missing => false
  | _ => true

/-- The outcome `(err, data)` of `fs.readFile`. -/
def World.readFile (w : World) (p : String) : Except String String :=
  match w.files p with
  | .content text => .ok text
  | .unreadable err => .error err
  | .missing => .error ("ENOENT: no such file or directory, open '" ++ p ++ "'")

/-- The options object of `explodeManifest`. -/
structure Options where
  manifestFilename : String
  extensionPath : Option String
  extensionLocation : JsVal
  useFoundationScripts : Bool
  useFrozenScripts : Bool
  registerExtension : Bool
  runJsInit : Bool
  wipeViews : Bool

/-! ## composeExtensionSql -/

/-- The value `composeExtensionSql` hands to its callback: `.error err` for
`callback(err)`, `.ok sql` for `callback(null, sql)`. -/
def composeExtensionSql (w : World) (scriptSql : List String) (packageFile : Descriptor)
    (options : Options) : Except String String :=
  let extensionSql := scriptSql.foldl (fun memo script => memo ++ script) ""
  let extensionSql :=
    if options.registerExtension then
      getRegistrationSql packageFile options.extensionLocation ++ extensionSql
    else extensionSql
  let extensionSql :=
    if options.runJsInit then "select xt.js_init();" ++ extensionSql else extensionSql
  if options.wipeViews then
    match w.readFile
      (path.join [w.__dirname, "../../enyo-client/database/source/delete_system_orms.sql"]) with
    | .error err => .error err
    | .ok wipeSql => .ok (wipeSql ++ extensionSql)
  else .ok extensionSql

/-! ## explodeManifest -/

/-- The load notice built by `getScriptSql` in `beforeNoticeSql`. -/
def beforeNoticeSql (fullFilename : String) : String :=
  "do $$ BEGIN RAISE NOTICE 'Loading file " ++ path.basename fullFilename ++
    "'; END $$ language plpgsql;\n"

/-- The invocations of `scriptCallback` made by `getScriptSql` for one manifest entry,
in order: `.error err` for `scriptCallback(err)`, `.ok sql` for
`scriptCallback(null, sql)`. The list is empty when an exception escapes first
(`path.join` on an entry that is not a string, or no transform for the extension). -/
def getScriptSql (w : World) (dbSourceRoot : String) (defaultSchema : JsVal)
    (filename : ScriptEntry) : List (Except String String) :=
  match filename with
  | .list _ => []
  | .path filename =>
    let fullFilename := path.join [dbSourceRoot, filename]
    if !w.existsSync fullFilename then
      [.error (path.join [dbSourceRoot, filename] ++ " does not exist")]
    else
      match w.readFile fullFilename with
      | .error err => [.error err]
      | .ok scriptContents =>
        let _beforeNoticeSql := beforeNoticeSql fullFilename
        let extname := substring1 (path.extname fullFilename)
        match w.conversionMap extname with
        | none => []
        | some convert =>
          let scriptContents := convert scriptContents fullFilename defaultSchema
          let scriptContents := jsTrim scriptContents
          (if !lastCharIs scriptContents ';' then
            [.error ("Error: " ++ fullFilename ++ " contents do not end in a semicolon.")]
          else []) ++ [.ok ("\n" ++ scriptContents)]

/-- The library function `async.mapSeries`, by the value its final callback receives.
The iteratee is run on the items one after another; `calls x` lists the invocations
the iteratee makes of its callback for item `x`. The first invocation decides: an
error goes to the final callback at once and nothing later reaches it, a value moves
on to the next item. When every item reported a value the final callback receives
the values in item order. `none`: the final callback is never invoked. -/
def mapSeries {α ε β : Type} (calls : α → List (Except ε β)) :
    List α → Option (Except ε (List β))
  | [] => some (.ok [])
  | x :: xs =>
    match calls x with
    | [] => none
    | .error err :: _ => some (.error err)
    | .ok v :: _ =>
      match mapSeries calls xs with
      | some (.ok vs) => some (.ok (v :: vs))
      | other => other

/-- The code `require(file)` on a JSON file: `none` when it throws, otherwise the
loaded value (`some none` for a value that is not an object). -/
def World.require (w : World) (file : String) : Option (Option Descriptor) :=
  match w.readFile file with
  | .error _ => none
  | .ok text =>
    match w.parseJson text with
    | .invalid => none
    | .null => some none
    | .value d => some (some d)

/-- The code `JSON.parse(fs.readFileSync(file))` followed by property reads;
`none` when it throws. -/
def World.readManifestSync (w : World) (file : String) : Option Descriptor :=
  match w.readFile file with
  | .error _ => none
  | .ok text =>
    match w.parseJson text with
    | .value d => some d
    | _ => none

/-- The path rewrite applied to the scripts of an extra manifest. -/
def alterPath (entry : ScriptEntry) : ScriptEntry :=
  .path ("../../foundation-database/" ++ entry.toStr)

/-- The working variables `databaseScripts` and `defaultSchema` of `explodeManifest`. -/
structure Scripts where
  databaseScripts : Option (List ScriptEntry)
  defaultSchema : JsVal

/-- The block `if (options.useFoundationScripts)`; `none` when it throws. -/
def useFoundationScripts (w : World) (dbSourceRoot : String) (st : Scripts) : Option Scripts :=
  match w.readManifestSync (path.join [dbSourceRoot, "../../foundation-database/manifest.js"]) with
  | none => none
  | some extraManifest =>
    let defaultSchema := st.defaultSchema.or extraManifest.defaultSchema
    let extraManifestScripts := extraManifest.databaseScripts.getD []
    let extraManifestScripts := extraManifestScripts.map alterPath
    match st.databaseScripts with
    | none => none
    | some databaseScripts =>
      let databaseScripts := ScriptEntry.list extraManifestScripts :: databaseScripts
      some ⟨some ((flatten databaseScripts).map .path), defaultSchema⟩

/-- The block `if (options.useFrozenScripts)`; `none` when it throws. -/
def useFrozenScripts (w : World) (dbSourceRoot : String) (alterPaths : Bool) (st : Scripts) :
    Option Scripts :=
  let extraManifestPath :=
    if alterPaths then path.join [dbSourceRoot, "../../foundation-database/frozen_manifest.js"]
    else path.join [dbSourceRoot, "frozen_manifest.js"]
  match w.readManifestSync extraManifestPath with
  | none => none
  | some extraManifest =>
    let defaultSchema := st.defaultSchema.or extraManifest.defaultSchema
    let extraManifestScripts := extraManifest.databaseScripts
    let extraManifestScripts :=
      if alterPaths then some ((extraManifestScripts.getD []).map alterPath)
      else extraManifestScripts
    match st.databaseScripts, extraManifestScripts with
    | none, _ => none
    | some _, none =>
      -- `undefined` is put in front of the scripts and stays there through `_.flatten`;
      -- `path.join` throws on it as soon as the first script is compiled
      none
    | some databaseScripts, some extraManifestScripts =>
      let databaseScripts := ScriptEntry.list extraManifestScripts :: databaseScripts
      some ⟨some ((flatten databaseScripts).map .path), defaultSchema⟩

/-- The first statement of `explodeManifest`: `packageJson` is loaded when the
extension has a `package.json`. `none` when `require` throws, `some none` when
`packageJson` stays undefined (or is not an object). -/
def loadPackageJson (w : World) (options : Options) : Option (Option Descriptor) :=
  match options.extensionPath with
  | none => some none
  | some extensionPath =>
    if extensionPath != "" && w.existsSync (path.resolve w.cwd [extensionPath, "package.json"]) then
      w.require (path.resolve w.cwd [extensionPath, "package.json"])
    else some none

/-- Where `explodeManifest` stands once the manifests are read. -/
inductive Resolution where
  /-- `manifestCallback` was already given `r`, or (`none`) an exception escaped. -/
  | finished (r : Option (Except String String)) : Resolution
  /-- The scripts and the schema handed to `async.mapSeries` and `getScriptSql`, with
  the descriptor `packageJson || manifest`. -/
  | scripts (packageFile : Descriptor) (databaseScripts : List ScriptEntry)
      (defaultSchema : JsVal) : Resolution

/-- Steps 1 to 2b of `explodeManifest`: everything before `getScriptSql` is defined. -/
def explodeManifestScripts (w : World) (options : Options) : Resolution :=
  let manifestFilename := options.manifestFilename
  let dbSourceRoot := path.dirname manifestFilename
  match loadPackageJson w options with
  | none => .finished none
  | some packageJson =>
    match w.existsSync manifestFilename, packageJson with
    | false, some packageJson => .finished (some (composeExtensionSql w [] packageJson options))
    | false, none => .finished (some (.error ("Cannot find manifest " ++ manifestFilename)))
    | true, _ =>
      let alterPaths := indexOfNegative dbSourceRoot "foundation-database"
      let manifest : Parsed :=
        match w.readFile manifestFilename with
        | .error _ => .invalid
        | .ok manifestString => w.parseJson manifestString
      match manifest with
      | .invalid | .null =>
        .finished (some (.error ("Manifest is not valid JSON" ++ manifestFilename)))
      | .value manifest =>
        let st : Option Scripts := some ⟨manifest.databaseScripts, manifest.defaultSchema⟩
        let st := if options.useFoundationScripts then
            st.bind (useFoundationScripts w dbSourceRoot) else st
        let st := if options.useFrozenScripts then
            st.bind (useFrozenScripts w dbSourceRoot alterPaths) else st
        match st with
        | none => .finished none
        | some st =>
          .scripts (packageJson.getD manifest) (st.databaseScripts.getD []) st.defaultSchema

/-- The value `explodeManifest` hands to `manifestCallback`: `some (.error err)` for
`manifestCallback(err)`, `some (.ok sql)` for `manifestCallback(null, sql)`, `none`
when the callback is never invoked. -/
def explodeManifest (w : World) (options : Options) : Option (Except String String) :=
  match explodeManifestScripts w options with
  | .finished r => r
  | .scripts packageFile databaseScripts defaultSchema =>
    let dbSourceRoot := path.dirname options.manifestFilename
    match mapSeries (getScriptSql w dbSourceRoot defaultSchema) databaseScripts with
    | none => none
    | some (.error err) => some (.error err)
    | some (.ok scriptSql) => some (composeExtensionSql w scriptSql packageFile options)

/-! ## The database client and child processes -/

/-- Connection credentials, with the `parameters` that `unregister` adds to its copy. -/
structure Creds where
  username : JsVal
  hostname : JsVal
  port : JsVal
  database : JsVal
  parameters : Option (List String)
  deriving DecidableEq

/-- A build spec. -/
structure BuildSpec where
  database : JsVal
  source : Option String
  backup : Option String
  extensions : Option (List String)
  deriving DecidableEq

/-- The arguments `(err, stdout)` that `child_process.exec` gives its callback. -/
structure ExecResult where
  err : Option String
  stdout : String

/-- The collaborators the module calls out to, as functions of what they are given:
`dataSource.query`, `child_process.exec`, `inspectDatabaseExtensions` (the `(err, paths)`
of its callback), `os.cpus().length`, and the errors of `fs.writeFile` and `fs.unlink`. -/
structure External where
  query : String → Creds → Except String String
  exec : String → ExecResult
  inspectDatabaseExtensions : Creds → Option String × Option (List String)
  cpus : Nat
  writeFileError : String → String → Option String
  unlinkError : String → Option String

/-- A call made to a collaborator. -/
inductive Command where
  | query (sql : String) (creds : Creds) : Command
  | exec (command : String) : Command
  | inspect (creds : Creds) : Command
  deriving DecidableEq

/-- The text of an optional string inside a concatenation. -/
def optToStr : Option String → String
  | none => "undefined"
  | some s => s

/-- The truthiness of an optional string. -/
def optTruthy : Option String → Bool
  | none => false
  | some s => s != ""

/-- The copy `JSON.parse(JSON.stringify(creds))`: a new object with the same fields. -/
def jsonClone (creds : Creds) : Creds :=
  { username := creds.username, hostname := creds.hostname, port := creds.port,
    database := creds.database, parameters := creds.parameters }

/-! ## initDatabase -/

/-- The objects `initDatabase` works on and the calls it has made so far. -/
structure InitState where
  credsClone : Creds
  spec : BuildSpec
  issued : List Command

/-- A task of `async.series`: it changes the state and calls `done(err, result)` once. -/
abbrev Task := InitState → InitState × Except String (Option String)

/-- The library function `async.series`, by the state it leaves and the `(err, results)`
its final callback receives: the tasks run one after another, each one started when
the one before has reported a result; the first error ends the run and goes to the
final callback. -/
def series : List Task → InitState → InitState × Except String (List (Option String))
  | [], s => (s, .ok [])
  | task :: tasks, s =>
    match task s with
    | (s, .error err) => (s, .error err)
    | (s, .ok result) =>
      match series tasks s with
      | (s, .error err) => (s, .error err)
      | (s, .ok results) => (s, .ok (result :: results))

/-- The task `done(err, stdout)` of an `exec` call. -/
def execTask (ext : External) (command : String) : Task := fun s =>
  ({ s with issued := s.issued ++ [.exec command] },
    match (ext.exec command).err with
    | some err => .error err
    | none => .ok (some (ext.exec command).stdout))

/-- The statement of `dropDatabase`. -/
def dropDatabaseSql (databaseName : JsVal) : String :=
  "drop database if exists " ++ databaseName.toStr ++ ";"

/-- The statement of `createDatabase`. -/
def createDatabaseSql (databaseName : JsVal) : String :=
  "create database " ++ databaseName.toStr ++ " template template1;"

/-- The task `dropDatabase`: the calls to drop and create the database are run
against the database "postgres". -/
def dropDatabase (ext : External) (databaseName : JsVal) : Task := fun s =>
  let credsClone := { s.credsClone with database := .str "postgres" }
  ({ s with credsClone := credsClone,
            issued := s.issued ++ [.query (dropDatabaseSql databaseName) credsClone] },
    (ext.query (dropDatabaseSql databaseName) credsClone).map some)

/-- The task `createDatabase`. -/
def createDatabase (ext : External) (databaseName : JsVal) : Task := fun s =>
  ({ s with issued := s.issued ++ [.query (createDatabaseSql databaseName) s.credsClone] },
    (ext.query (createDatabaseSql databaseName) s.credsClone).map some)

/-- The command line of `buildSchema`. -/
def buildSchemaCommand (spec : BuildSpec) (creds : Creds) (databaseName : JsVal) : String :=
  let schemaPath := path.join [path.dirname (optToStr spec.source), "440_schema.sql"]
  "psql -U " ++ creds.username.toStr ++ " -h " ++ creds.hostname.toStr ++
    " --single-transaction -p " ++ creds.port.toStr ++ " -d " ++ databaseName.toStr ++
    " -f " ++ schemaPath

/-- The command line of `populateData`. -/
def populateDataCommand (spec : BuildSpec) (creds : Creds) (databaseName : JsVal) : String :=
  "psql -U " ++ creds.username.toStr ++ " -h " ++ creds.hostname.toStr ++
    " --single-transaction -p " ++ creds.port.toStr ++ " -d " ++ databaseName.toStr ++
    " -f " ++ optToStr spec.source

/-- The command line of `restoreBackup`. -/
def restoreBackupCommand (ext : External) (spec : BuildSpec) (creds : Creds)
    (databaseName : JsVal) : String :=
  "pg_restore -U " ++ creds.username.toStr ++ " -h " ++ creds.hostname.toStr ++ " -p " ++
    creds.port.toStr ++ " -d " ++ databaseName.toStr ++ " -j " ++ toString ext.cpus ++ " " ++
    optToStr spec.backup

/-- The task `buildSchema`. -/
def buildSchema (ext : External) (creds : Creds) (databaseName : JsVal) : Task := fun s =>
  execTask ext (buildSchemaCommand s.spec creds databaseName) s

/-- The task `populateData`. -/
def populateData (ext : External) (creds : Creds) (databaseName : JsVal) : Task := fun s =>
  execTask ext (populateDataCommand s.spec creds databaseName) s

/-- The task `restoreBackup`: an error of `pg_restore` is logged and `done(null, res)`
is called all the same. -/
def restoreBackup (ext : External) (creds : Creds) (databaseName : JsVal) : Task := fun s =>
  let command := restoreBackupCommand ext s.spec creds databaseName
  ({ s with issued := s.issued ++ [.exec command] }, .ok (some (ext.exec command).stdout))

/-- The last task of the build from a backup: the extensions found in the database
replace `spec.extensions`, and `done()` is called without an error. -/
def inspectExtensions (ext : External) (databaseName : JsVal) : Task := fun s =>
  let credsClone := { s.credsClone with database := databaseName }
  let paths := (ext.inspectDatabaseExtensions credsClone).2
  ({ credsClone := credsClone, spec := { s.spec with extensions := paths },
     issued := s.issued ++ [.inspect credsClone] }, .ok none)

/-- What `initDatabase` leaves behind. -/
structure InitResult where
  /-- the caller's `spec` object afterwards -/
  spec : BuildSpec
  /-- the calls made to the collaborators, in order -/
  issued : List Command
  /-- the `(err, results)` given to `callback` -/
  outcome : Except String (List (Option String))

/-- Wipe out the database and load it from scratch. -/
def initDatabase (ext : External) (spec : BuildSpec) (creds : Creds) : InitResult :=
  let databaseName := spec.database
  let credsClone := jsonClone creds
  let start : InitState := { credsClone := credsClone, spec := spec, issued := [] }
  let tasks : List Task :=
    if optTruthy spec.source then
      [dropDatabase ext databaseName, createDatabase ext databaseName,
        buildSchema ext creds databaseName, populateData ext creds databaseName]
    else
      [dropDatabase ext databaseName, createDatabase ext databaseName,
        restoreBackup ext creds databaseName, inspectExtensions ext databaseName]
  let (final, outcome) := series tasks start
  { spec := final.spec, issued := final.issued, outcome := outcome }

/-! ## sendToDatabase -/

/-- What `sendToDatabase` leaves behind: the file system and the `err` argument of
every invocation of `callback`, in order (`none` for `callback()`). -/
structure SendResult where
  files : String → FileState
  calls : List (Option String)

/-- The name of the temporary query file. -/
def tempQueryFilename (w : World) (credsClone : Creds) : String :=
  path.join [w.__dirname, "temp_query_" ++ credsClone.database.toStr ++ ".sql"]

/-- The `psql` command line of `sendToDatabase`. -/
def psqlCommand (credsClone : Creds) (filename : String) : String :=
  "psql -d " ++ credsClone.database.toStr ++
    " -U " ++ credsClone.username.toStr ++
    " -h " ++ credsClone.hostname.toStr ++
    " -p " ++ credsClone.port.toStr ++
    " -f " ++ filename ++
    " --single-transaction"

/-- Writes the query to a temporary file and runs `psql` on it. -/
def sendToDatabase (w : World) (ext : External) (query : String) (credsClone : Creds)
    (keepSql : Bool) : SendResult :=
  let filename := tempQueryFilename w credsClone
  match ext.writeFileError filename query with
  | some err => { files := w.files, calls := [some err] }
  | none =>
    let files : String → FileState := fun p => if p = filename then .content query else w.files p
    match (ext.exec (psqlCommand credsClone filename)).err with
    | some err => { files := files, calls := [some err] }
    | none =>
      if keepSql then { files := files, calls := [none] }
      else
        match ext.unlinkError filename with
        | some err => { files := files, calls := [some err, none] }
        | none =>
          { files := fun p => if p = filename then .missing else files p, calls := [none] }

/-! ## unregister -/

/-- The six statements of `unregisterSql`. -/
def unregisterSql : List String :=
  ["delete from xt.usrext where usrext_id in " ++
    "(select usrext_id from xt.usrext inner join xt.ext on usrext_ext_id = ext_id where ext_name = $1);",

    "delete from xt.grpext where grpext_id in " ++
    "(select grpext_id from xt.grpext inner join xt.ext on grpext_ext_id = ext_id where ext_name = $1);",

    "delete from xt.clientcode where clientcode_id in " ++
    "(select clientcode_id from xt.clientcode inner join xt.ext on clientcode_ext_id = ext_id where ext_name = $1);",

    "delete from xt.dict where dict_id in " ++
    "(select dict_id from xt.dict inner join xt.ext on dict_ext_id = ext_id where ext_name = $1);",

    "delete from xt.extdep where extdep_id in " ++
    "(select extdep_id from xt.extdep inner join xt.ext " ++
    "on extdep_from_ext_id = ext_id or extdep_to_ext_id = ext_id where ext_name = $1);",

    "delete from xt.ext where ext_name = $1;"]

/-- The library function `async.eachSeries` on queries: each item is handled when the
one before has reported success; the first error ends the run. It gives the items
handled, in order, and the error given to the final callback. -/
def eachSeries {α : Type} (run : α → Except String String) : List α → List α × Option String
  | [] => ([], none)
  | x :: xs =>
    match run x with
    | .error err => ([x], some err)
    | .ok _ => ((eachSeries run xs).1.cons x, (eachSeries run xs).2)

/-- The name under which the extension is unregistered. -/
def extensionName (location : String) : String :=
  let extension := path.basename location
  if lastCharIs extension '/' then ⟨extension.data.take (extension.data.length - 1)⟩
  else extension

/-- The credentials objects alive, by address; `next` is the first free address. -/
structure Heap where
  objects : Nat → Creds
  next : Nat

/-- A new object holding `value`; its address is returned. -/
def Heap.alloc (heap : Heap) (value : Creds) : Heap × Nat :=
  ({ objects := Function.update heap.objects heap.next value, next := heap.next + 1 }, heap.next)

/-- An assignment to fields of the object at `address`. -/
def Heap.assign (heap : Heap) (address : Nat) (change : Creds → Creds) : Heap :=
  { heap with objects := Function.update heap.objects address (change (heap.objects address)) }

/-- The function `unregisterEach` for the caller's credentials object at address `creds`:
the heap afterwards, the queries issued for the spec, in order, and the error given to
its callback. -/
def unregisterEach (ext : External) (extension : String) (creds : Nat) (heap : Heap)
    (spec : BuildSpec) : Heap × (List Command × Option String) :=
  let (heap, options) := heap.alloc (jsonClone (heap.objects creds))
  let heap := heap.assign options (fun o => { o with database := spec.database })
  let heap := heap.assign options (fun o => { o with parameters := some [extension] })
  let queryEach := fun sql => ext.query sql (heap.objects options)
  let (issued, err) := eachSeries queryEach unregisterSql
  (heap, (issued.map (fun sql => Command.query sql (heap.objects options)), err))

/-- The library function `async.each` on `unregisterEach`: the iteratee is started on
every spec, in the order of `specs`; what it does for one spec does not depend on the
outcome for another. -/
def each (iteratee : Heap → BuildSpec → Heap × (List Command × Option String)) :
    Heap → List BuildSpec → Heap × List (List Command × Option String)
  | heap, [] => (heap, [])
  | heap, spec :: specs =>
    let (heap, result) := iteratee heap spec
    let (heap, results) := each iteratee heap specs
    (heap, result :: results)

/-- What `unregister` leaves behind. -/
structure UnregisterResult where
  /-- the extension name used for every spec -/
  extension : String
  /-- for every spec, in the order of `specs`: the queries issued and the error reported -/
  perSpec : List (List Command × Option String)
  /-- the credentials objects afterwards -/
  heap : Heap
  /-- whether `masterCallback` receives an error -/
  failed : Bool

/-- Unregisters the extension in every spec, with the caller's credentials object at
address `creds`; `none` when reading `specs[0].extensions[0]` throws. -/
def unregister (ext : External) (specs : List BuildSpec) (heap : Heap) (creds : Nat) :
    Option UnregisterResult :=
  match specs with
  | [] => none
  | first :: _ =>
    match first.extensions with
    | none => none
    | some [] => none
    | some (location :: _) =>
      let extension := extensionName location
      let (heap, perSpec) := each (unregisterEach ext extension creds) heap specs
      some { extension := extension, perSpec := perSpec, heap := heap,
             failed := perSpec.any (fun r => r.2.isSome) }

/-! ## Vocabulary of the statements -/

/-- The credentials `dropDatabase` and `createDatabase` are expected to query with. -/
def maintenanceCreds (creds : Creds) : Creds :=
  { creds with database := .str "postgres" }

/-- The credentials the installed extensions are expected to be inspected with. -/
def targetCreds (creds : Creds) (databaseName : JsVal) : Creds :=
  { creds with database := databaseName }

/-- The credentials the statements of `unregister` are expected to be sent with. -/
def unregisterCreds (creds : Creds) (extension : String) (spec : BuildSpec) : Creds :=
  { creds with database := spec.database, parameters := some [extension] }

/-- The location without its trailing separators. -/
def stripTrailingSeparators (location : String) : List Char :=
  (location.data.reverse.dropWhile (fun c => c = '/')).reverse

/-- Splits at every blank. -/
def splitBlank : List Char → List (List Char)
  | [] => [[]]
  | c :: cs =>
    if c = ' ' then [] :: splitBlank cs
    else
      match splitBlank cs with
      | [] => [[c]]
      | word :: words => (c :: word) :: words

/-- The first three words of a statement. -/
def leadingWords (sql : String) : List String :=
  ((splitBlank sql.data).take 3).map String.mk

/-! ## Example inputs -/

/-- A descriptor with two dependencies. -/
def exampleDescriptor : Descriptor :=
  { name := .str "inventory", description := .str "Inventory", comment := .undefined,
    loadOrder := .undefined, dependencies := some ["crm", "sales"], defaultSchema := .undefined,
    databaseScripts := none }

/-- A descriptor with every field undefined. -/
def emptyDescriptor : Descriptor :=
  { name := .undefined, description := .undefined, comment := .undefined,
    loadOrder := .undefined, dependencies := none, defaultSchema := .undefined,
    databaseScripts := none }

/-- The text of a manifest with two scripts. -/
def inventoryManifestText : String :=
  "\x7b\"name\": \"inventory\", \"databaseScripts\": [\"a.sql\", \"b.sql\"]\x7d"

/-- The manifest with two scripts. -/
def inventoryManifest : Descriptor :=
  { emptyDescriptor with
    name := .str "inventory", databaseScripts := some [.path "a.sql", .path "b.sql"] }

/-- The text of a foundation manifest whose scripts sit in a nested list. -/
def nestedFoundationText : String :=
  "\x7b\"defaultSchema\": \"public\", \"databaseScripts\": [[\"f1.sql\", \"f2.sql\"]]\x7d"

/-- The text of a foundation manifest with a flat list of scripts. -/
def flatFoundationText : String :=
  "\x7b\"defaultSchema\": \"public\", \"databaseScripts\": [\"f1.sql\", \"f2.sql\"]\x7d"

/-- The foundation manifest with a flat list of scripts. -/
def flatFoundation : Descriptor :=
  { emptyDescriptor with
    defaultSchema := .str "public", databaseScripts := some [.path "f1.sql", .path "f2.sql"] }

/-- The text of a manifest whose second script lacks the closing semicolon. -/
def brokenManifestText : String :=
  "\x7b\"databaseScripts\": [\"a.sql\", \"noend.sql\", \"b.sql\"]\x7d"

/-- The result of `JSON.parse` on the example texts. -/
def exampleParseJson (text : String) : Parsed :=
  if text = inventoryManifestText then .value inventoryManifest
  else if text = nestedFoundationText then
    .value { emptyDescriptor with
      defaultSchema := .str "public",
      databaseScripts := some [.list [.path "f1.sql", .path "f2.sql"]] }
  else if text = flatFoundationText then .value flatFoundation
  else if text = brokenManifestText then
    .value { emptyDescriptor with
      databaseScripts := some [.path "a.sql", .path "noend.sql", .path "b.sql"] }
  else if text = "null" then .null
  else .invalid

/-- The files of the example source trees. -/
def exampleFiles (p : String) : FileState :=
  if p = "/xtuple/enyo-client/database/source/delete_system_orms.sql" then
    .content "select xt.delete_system_orms();\n"
  else if p = "nested/database/source/manifest.js" then .content inventoryManifestText
  else if p = "nested/foundation-database/manifest.js" then .content nestedFoundationText
  else if p = "flat/database/source/manifest.js" then .content inventoryManifestText
  else if p = "flat/foundation-database/manifest.js" then .content flatFoundationText
  else if p = "inventory/manifest.js" then .content inventoryManifestText
  else if p = "inventory/a.sql" then .content "select 1;\n"
  else if p = "inventory/b.sql" then .content "  select 2;"
  else if p = "broken/manifest.js" then .content brokenManifestText
  else if p = "broken/a.sql" then .content "select 1;\n"
  else if p = "broken/noend.sql" then .content "select 2\n"
  else if p = "broken/b.sql" then .content "select 3;"
  else .missing

/-- The example environment; `.sql` files pass through the registry unchanged. -/
def exampleWorld : World :=
  { files := exampleFiles
    __dirname := "/xtuple/scripts/lib"
    cwd := "/xtuple"
    parseJson := exampleParseJson
    conversionMap := fun extname =>
      if extname = "sql" then some (fun text _ _ => text) else none }

/-- Options with no flag set. -/
def plainOptions (manifestFilename : String) : Options :=
  { manifestFilename := manifestFilename, extensionPath := none, extensionLocation := .undefined,
    useFoundationScripts := false, useFrozenScripts := false, registerExtension := false,
    runJsInit := false, wipeViews := false }

/-- Options with `useFoundationScripts` set. -/
def foundationOptions (manifestFilename : String) : Options :=
  { plainOptions manifestFilename with useFoundationScripts := true }

/-- Options with `wipeViews`, `runJsInit` and `registerExtension` set. -/
def fullOptions (manifestFilename : String) : Options :=
  { plainOptions manifestFilename with
    registerExtension := true, runJsInit := true, wipeViews := true }

/-- Example credentials. -/
def exampleCreds : Creds :=
  { username := .str "admin", hostname := .str "localhost", port := .num 5432,
    database := .str "dev", parameters := none }

/-- A build spec with a source path. -/
def sourceSpec : BuildSpec :=
  { database := .str "demo", source := some "foundation-database/postbooks_demo_data.sql",
    backup := none, extensions := some ["lib/orm"] }

/-- A build spec with a backup. -/
def backupSpec : BuildSpec :=
  { database := .str "demo", source := none, backup := some "demo.backup",
    extensions := some ["lib/orm"] }

/-- A target spec for the extension `inventory` on the database `dev`. -/
def devSpec : BuildSpec :=
  { database := .str "dev", source := none, backup := none,
    extensions := some ["../ext/inventory/"] }

/-- A target spec for the extension `inventory` on the database `prod`. -/
def prodSpec : BuildSpec :=
  { database := .str "prod", source := none, backup := none,
    extensions := some ["../ext/inventory/"] }

/-- Collaborators that never fail. -/
def healthy : External :=
  { query := fun _ _ => .ok "ok"
    exec := fun _ => { err := none, stdout := "" }
    inspectDatabaseExtensions := fun _ => (none, some ["lib/orm", "inventory"])
    cpus := 4
    writeFileError := fun _ _ => none
    unlinkError := fun _ => none }

/-- Collaborators whose child processes all fail. -/
def failingProcesses : External :=
  { healthy with exec := fun _ => { err := some "Command failed", stdout := "" } }

/-- A heap holding the example credentials at address 0. -/
def exampleHeap : Heap :=
  { objects := fun _ => exampleCreds, next := 1 }

/-- The text of a frozen manifest with a flat list of scripts. -/
def flatFrozenText : String :=
  "\x7b\"defaultSchema\": \"xt\", \"databaseScripts\": [\"z1.sql\", \"z2.sql\"]\x7d"

/-- The frozen manifest with a flat list of scripts. -/
def flatFrozen : Descriptor :=
  { emptyDescriptor with
    defaultSchema := .str "xt", databaseScripts := some [.path "z1.sql", .path "z2.sql"] }

/-- The text of a frozen manifest whose scripts sit in a nested list. -/
def nestedFrozenText : String :=
  "\x7b\"defaultSchema\": \"xt\", \"databaseScripts\": [[\"z1.sql\", \"z2.sql\"]]\x7d"

/-- The result of `JSON.parse` on the texts of the frozen manifests and the example texts. -/
def frozenParseJson (text : String) : Parsed :=
  if text = flatFrozenText then .value flatFrozen
  else if text = nestedFrozenText then
    .value { emptyDescriptor with
      defaultSchema := .str "xt",
      databaseScripts := some [.list [.path "z1.sql", .path "z2.sql"]] }
  else exampleParseJson text

/-- The example source trees with two more trees that have a frozen manifest. -/
def frozenFiles (p : String) : FileState :=
  if p = "both/database/source/manifest.js" then .content inventoryManifestText
  else if p = "both/foundation-database/manifest.js" then .content flatFoundationText
  else if p = "both/foundation-database/frozen_manifest.js" then .content flatFrozenText
  else if p = "mixed/database/source/manifest.js" then .content inventoryManifestText
  else if p = "mixed/foundation-database/manifest.js" then .content flatFoundationText
  else if p = "mixed/foundation-database/frozen_manifest.js" then .content nestedFrozenText
  else exampleFiles p

/-- The example environment with the frozen manifests. -/
def frozenWorld : World :=
  { exampleWorld with files := frozenFiles, parseJson := frozenParseJson }

/-- Options with `useFoundationScripts` and `useFrozenScripts` set. -/
def frozenOptions (manifestFilename : String) : Options :=
  { plainOptions manifestFilename with useFoundationScripts := true, useFrozenScripts := true }

/-! ## Lemmas -/

theorem foldl_append_eq_foldr (xs : List String) (init : String) :
    xs.foldl (fun memo script => memo ++ script) init =
      init ++ xs.foldr (fun script rest => script ++ rest) "" := by
  induction xs generalizing init with
  | nil => simp
  | cons x xs ih => simp [ih, String.append_assoc]

theorem existsSync_of_readFile {w : World} {p text : String} (h : w.readFile p = .ok text) :
    w.existsSync p = true := by
  unfold World.readFile at h
  unfold World.existsSync
  cases hf : w.files p <;> simp_all

theorem flatten_append (xs ys : List ScriptEntry) :
    flatten (xs ++ ys) = flatten xs ++ flatten ys := by
  induction xs with
  | nil => simp [flatten]
  | cons x xs ih => simp [flatten, ih]

theorem flatten_map_path (ps : List String) : flatten (ps.map .path) = ps := by
  induction ps with
  | nil => simp [flatten]
  | cons p ps ih => simp [flatten, ScriptEntry.flatten, ih]

theorem flatten_map_alterPath (ps : List String) :
    flatten (ps.map (alterPath ∘ ScriptEntry.path)) =
      ps.map (fun p => "../../foundation-database/" ++ p) := by
  induction ps with
  | nil => simp [flatten]
  | cons p ps ih => simp [flatten, ScriptEntry.flatten, alterPath, ScriptEntry.toStr, ih]

theorem mapSeries_first_error {α ε β : Type} (calls : α → List (Except ε β))
    (before after : List α) (x : α) (err : ε)
    (hBefore : ∀ y ∈ before, ∃ v rest, calls y = .ok v :: rest)
    (hx : (calls x).head? = some (.error err)) :
    mapSeries calls (before ++ x :: after) = some (.error err) := by
  induction before with
  | nil =>
    cases hc : calls x with
    | nil => simp [hc] at hx
    | cons c cs =>
      simp [hc] at hx
      subst hx
      simp [mapSeries, hc]
  | cons y ys ih =>
    obtain ⟨v, rest, hy⟩ := hBefore y (by simp)
    have ih := ih (fun z hz => hBefore z (by simp [hz]))
    simp [mapSeries, hy, ih]

theorem dropWhile_ne_slash (cs : List Char) :
    cs.dropWhile (fun c => decide (c ≠ '/')) = [] ∨
      ∃ rest, cs.dropWhile (fun c => decide (c ≠ '/')) = '/' :: rest := by
  induction cs with
  | nil => simp
  | cons c cs ih =>
    by_cases hc : c = '/'
    · right; exact ⟨cs, by simp [List.dropWhile, hc]⟩
    · simpa [List.dropWhile, hc] using ih

theorem basename_no_separator (location : String) : '/' ∉ (path.basename location).data := by
  simp only [path.basename, List.mem_reverse]
  intro h
  have := List.mem_takeWhile_imp h
  simp at this

theorem extensionName_eq_basename (location : String) :
    extensionName location = path.basename location := by
  have h := basename_no_separator location
  unfold extensionName lastCharIs
  have : (path.basename location).data.getLast? ≠ some '/' := by
    intro hl
    exact h (List.mem_of_getLast?_eq_some hl)
  simp [this]

theorem basename_final_segment (location : String) :
    stripTrailingSeparators location = (path.basename location).data ∨
      ∃ before, stripTrailingSeparators location =
        before ++ '/' :: (path.basename location).data := by
  unfold stripTrailingSeparators path.basename
  generalize location.data.reverse.dropWhile (fun c => decide (c = '/')) = r
  have hsplit := List.takeWhile_append_dropWhile (fun c => decide (c ≠ '/')) r
  rcases dropWhile_ne_slash r with h | ⟨rest, h⟩
  · left
    rw [h, List.append_nil] at hsplit
    rw [hsplit]
  · right
    refine ⟨rest.reverse, ?_⟩
    rw [h] at hsplit
    conv_lhs => rw [← hsplit]
    simp


theorem eachSeries_all_ok {α : Type} (run : α → Except String String) (xs : List α)
    (h : ∀ x ∈ xs, ∃ res, run x = .ok res) : eachSeries run xs = (xs, none) := by
  induction xs with
  | nil => rfl
  | cons x xs ih =>
    obtain ⟨res, hx⟩ := h x (by simp)
    have ih := ih (fun y hy => h y (by simp [hy]))
    simp [eachSeries, hx, ih]

theorem eachSeries_issued {α : Type} (run : α → Except String String) (xs : List α) :
    ∃ n, (eachSeries run xs).1 = xs.take (n + 1) ∧
      ∀ x ∈ xs.take n, ∃ res, run x = .ok res := by
  induction xs with
  | nil => exact ⟨0, by simp [eachSeries]⟩
  | cons x xs ih =>
    cases hx : run x with
    | error err => exact ⟨0, by simp [eachSeries, hx]⟩
    | ok res =>
      obtain ⟨n, h1, h2⟩ := ih
      refine ⟨n + 1, by simp [eachSeries, hx, h1], ?_⟩
      intro y hy
      simp only [List.take_succ_cons, List.mem_cons] at hy
      rcases hy with rfl | hy
      · exact ⟨res, hx⟩
      · exact h2 y hy


theorem unregisterEach_spec (ext : External) (extension : String) (creds : Nat) (heap : Heap)
    (spec : BuildSpec) (hCreds : creds < heap.next) :
    (unregisterEach ext extension creds heap spec).1.objects creds = heap.objects creds ∧
    (unregisterEach ext extension creds heap spec).1.next = heap.next + 1 ∧
    (unregisterEach ext extension creds heap spec).2 =
      (((eachSeries (fun sql => ext.query sql { heap.objects creds with
            database := spec.database, parameters := some [extension] }) unregisterSql).1.map
          (fun sql => Command.query sql { heap.objects creds with
            database := spec.database, parameters := some [extension] })),
        (eachSeries (fun sql => ext.query sql { heap.objects creds with
            database := spec.database, parameters := some [extension] }) unregisterSql).2) := by
  have hne : creds ≠ heap.next := Nat.ne_of_lt hCreds
  refine ⟨?_, ?_, ?_⟩
  · simp [unregisterEach, Heap.alloc, Heap.assign, Function.update, hne]
  · simp [unregisterEach, Heap.alloc, Heap.assign]
  · simp [unregisterEach, Heap.alloc, Heap.assign, Function.update, jsonClone]

theorem each_unregisterEach (ext : External) (extension : String) (creds : Nat)
    (specs : List BuildSpec) (heap : Heap) (hCreds : creds < heap.next) :
    (each (unregisterEach ext extension creds) heap specs).1.objects creds = heap.objects creds ∧
    (each (unregisterEach ext extension creds) heap specs).2 =
      specs.map (fun spec =>
        (((eachSeries (fun sql => ext.query sql { heap.objects creds with
            database := spec.database, parameters := some [extension] }) unregisterSql).1.map
          (fun sql => Command.query sql { heap.objects creds with
            database := spec.database, parameters := some [extension] })),
        (eachSeries (fun sql => ext.query sql { heap.objects creds with
            database := spec.database, parameters := some [extension] }) unregisterSql).2)) := by
  induction specs generalizing heap with
  | nil => simp [each]
  | cons spec specs ih =>
    obtain ⟨h1, h2, h3⟩ := unregisterEach_spec ext extension creds heap spec hCreds
    have hlt : creds < (unregisterEach ext extension creds heap spec).1.next := by omega
    obtain ⟨ih1, ih2⟩ := ih (unregisterEach ext extension creds heap spec).1 hlt
    simp only [each, List.map_cons]
    rw [h1] at ih1 ih2
    exact ⟨ih1, by rw [ih2, h3]⟩

theorem flatten_map_path_comp (f : String → String) (ps : List String) :
    flatten (ps.map (ScriptEntry.path ∘ f)) = ps.map f := by
  rw [← List.map_map, flatten_map_path]

/-! ## Claims -/

/-- C1, as stated, fails: for the descriptor `inventory` with dependencies `crm` and
`sales`, the registration text is not the extension's own grant and registration
followed by the statements of the dependencies. -/
theorem getRegistrationSql_own_statements_not_first :
    exampleDescriptor.dependencies = some ["crm", "sales"] ∧
    getRegistrationSql exampleDescriptor (.str "/ext") ≠
      grantRoleExtSql exampleDescriptor.name ++
      registerExtensionSql exampleDescriptor (.str "/ext") ++
      dependencySql exampleDescriptor.name "sales" ++ grantRoleExtSql (.str "sales") ++
      dependencySql exampleDescriptor.name "crm" ++ grantRoleExtSql (.str "crm") := by
  refine ⟨rfl, ?_⟩
  decide


/-- C1, amended: with dependencies `[d1, d2]` the registration text is, from top to
bottom, `register_extension_dependency` for `d2`, `grant_role_ext` for `d2`,
`register_extension_dependency` for `d1`, `grant_role_ext` for `d1`, then
`grant_role_ext` and `register_extension` for the extension itself. -/
theorem getRegistrationSql_two_dependencies (options : Descriptor) (extensionLocation : JsVal)
    (d1 d2 : String) (h : options.dependencies = some [d1, d2]) :
    getRegistrationSql options extensionLocation =
      dependencySql options.name d2 ++ grantRoleExtSql (.str d2) ++
      dependencySql options.name d1 ++ grantRoleExtSql (.str d1) ++
      grantRoleExtSql options.name ++ registerExtensionSql options extensionLocation := by
  simp [getRegistrationSql, h, String.append_assoc]


/-- The amended C1 on the descriptor `inventory`. -/
theorem getRegistrationSql_two_dependencies_witness :
    exampleDescriptor.dependencies = some ["crm", "sales"] ∧
    getRegistrationSql exampleDescriptor (.str "/ext") =
      dependencySql exampleDescriptor.name "sales" ++ grantRoleExtSql (.str "sales") ++
      dependencySql exampleDescriptor.name "crm" ++ grantRoleExtSql (.str "crm") ++
      grantRoleExtSql exampleDescriptor.name ++
      registerExtensionSql exampleDescriptor (.str "/ext") :=
  ⟨rfl, getRegistrationSql_two_dependencies exampleDescriptor (.str "/ext") "crm" "sales" rfl⟩


/-- C2: with `wipeViews`, `runJsInit` and `registerExtension` set and the wipe script
read, `composeExtensionSql` gives its callback, without an error, the wipe script, then
`select xt.js_init();`, then the registration text, then the fragments in list order. -/
theorem composeExtensionSql_all_options (w : World) (scriptSql : List String)
    (packageFile : Descriptor) (options : Options) (wipeSql : String)
    (hWipe : options.wipeViews = true) (hInit : options.runJsInit = true)
    (hReg : options.registerExtension = true)
    (hRead : w.readFile
      (path.join [w.__dirname, "../../enyo-client/database/source/delete_system_orms.sql"]) =
        .ok wipeSql) :
    composeExtensionSql w scriptSql packageFile options =
      .ok (wipeSql ++ ("select xt.js_init();" ++
        (getRegistrationSql packageFile options.extensionLocation ++
          scriptSql.foldr (fun script rest => script ++ rest) ""))) := by
  simp [composeExtensionSql, hWipe, hInit, hReg, hRead, foldl_append_eq_foldr]


/-- C2 on two fragments and the descriptor `inventory`. -/
theorem composeExtensionSql_all_options_witness :
    exampleWorld.readFile "/xtuple/enyo-client/database/source/delete_system_orms.sql" =
      .ok "select xt.delete_system_orms();\n" ∧
    composeExtensionSql exampleWorld ["\nselect 1;", "\nselect 2;"] exampleDescriptor
        (fullOptions "inventory/manifest.js") =
      .ok ("select xt.delete_system_orms();\n" ++ ("select xt.js_init();" ++
        (getRegistrationSql exampleDescriptor (fullOptions "inventory/manifest.js").extensionLocation ++
          ["\nselect 1;", "\nselect 2;"].foldr (fun script rest => script ++ rest) ""))) :=
  ⟨rfl, composeExtensionSql_all_options exampleWorld ["\nselect 1;", "\nselect 2;"]
    exampleDescriptor (fullOptions "inventory/manifest.js") "select xt.delete_system_orms();\n"
    rfl rfl rfl rfl⟩

set_option maxRecDepth 100000 in
/-- C3 fails on the code: for the manifest listing `a.sql` and `b.sql`, no flag set, the
bundle is the trimmed text of the two scripts, each after a line break; the load
notices built for `a.sql` and `b.sql` are not in it. -/
theorem explodeManifest_no_load_notice :
    explodeManifest exampleWorld (plainOptions "inventory/manifest.js") =
      some (.ok "\nselect 1;\nselect 2;") ∧
    beforeNoticeSql "inventory/a.sql" =
      "do $$ BEGIN RAISE NOTICE 'Loading file a.sql'; END $$ language plpgsql;\n" ∧
    containsChars "RAISE NOTICE".data "\nselect 1;\nselect 2;".data = false :=
  ⟨rfl, by decide, by decide⟩

set_option maxRecDepth 100000 in
/-- C4, as stated, fails: a foundation manifest whose scripts sit in a nested list is not
flattened before the paths are rewritten; the nested list becomes one path. -/
theorem explodeManifest_nested_foundation_scripts :
    ∃ packageFile scripts defaultSchema,
      explodeManifestScripts exampleWorld (foundationOptions "nested/database/source/manifest.js") =
        .scripts packageFile scripts defaultSchema ∧
      scripts = [.path "../../foundation-database/f1.sql,f2.sql", .path "a.sql", .path "b.sql"] ∧
      scripts ≠
        (((flatten [.list [.path "f1.sql", .path "f2.sql"]]).map
            (fun p => "../../foundation-database/" ++ p)) ++
          flatten [.path "a.sql", .path "b.sql"]).map .path :=
  ⟨_, [.path "../../foundation-database/f1.sql,f2.sql", .path "a.sql", .path "b.sql"], _, rfl,
    rfl, by simp [flatten, ScriptEntry.flatten]⟩

/-- C4, amended: with `useFoundationScripts` set and `useFrozenScripts` not, for a
foundation manifest whose `databaseScripts` is a flat list of paths, the scripts compiled
are the foundation paths, each after "../../foundation-database/", in order, followed by
the flattened scripts of the current manifest; the schema handed to the transforms is
`manifest.defaultSchema || foundation.defaultSchema`. -/
theorem explodeManifest_foundation_scripts (w : World) (options : Options)
    (packageJson : Option Descriptor) (manifest foundation : Descriptor)
    (manifestString foundationString : String) (ownScripts : List ScriptEntry)
    (foundationPaths : List String)
    (hFoundation : options.useFoundationScripts = true)
    (hFrozen : options.useFrozenScripts = false)
    (hPackage : loadPackageJson w options = some packageJson)
    (hRead : w.readFile options.manifestFilename = .ok manifestString)
    (hParse : w.parseJson manifestString = .value manifest)
    (hOwn : manifest.databaseScripts = some ownScripts)
    (hReadF : w.readFile (path.join [path.dirname options.manifestFilename,
      "../../foundation-database/manifest.js"]) = .ok foundationString)
    (hParseF : w.parseJson foundationString = .value foundation)
    (hFlat : foundation.databaseScripts = some (foundationPaths.map .path)) :
    explodeManifestScripts w options =
      .scripts (packageJson.getD manifest)
        ((foundationPaths.map (fun p => "../../foundation-database/" ++ p) ++
          flatten ownScripts).map .path)
        (manifest.defaultSchema.or foundation.defaultSchema) := by
  have hEx := existsSync_of_readFile hRead
  simp [explodeManifestScripts, hPackage, hEx, hRead, hParse, hFoundation, hFrozen,
    useFoundationScripts, World.readManifestSync, hReadF, hParseF, hOwn, hFlat,
    flatten_map_alterPath, flatten, ScriptEntry.flatten]


set_option maxRecDepth 100000 in
/-- The amended C4 on the tree `flat`. -/
theorem explodeManifest_foundation_scripts_witness :
    (foundationOptions "flat/database/source/manifest.js").useFoundationScripts = true ∧
    explodeManifestScripts exampleWorld (foundationOptions "flat/database/source/manifest.js") =
      .scripts inventoryManifest
        [.path "../../foundation-database/f1.sql", .path "../../foundation-database/f2.sql",
          .path "a.sql", .path "b.sql"]
        (.str "public") :=
  ⟨rfl, explodeManifest_foundation_scripts exampleWorld
    (foundationOptions "flat/database/source/manifest.js") none inventoryManifest flatFoundation
    inventoryManifestText flatFoundationText
    [.path "a.sql", .path "b.sql"] ["f1.sql", "f2.sql"] rfl rfl rfl rfl rfl rfl rfl rfl rfl⟩

/-- C5: when the scripts before it compile and a script's transformed, trimmed text is
empty or does not end in `;`, the first thing `getScriptSql` hands to the script callback
is the error "Error: <file> contents do not end in a semicolon.", and `explodeManifest`
hands that error, not a bundle, to its caller. -/
theorem explodeManifest_missing_semicolon (w : World) (options : Options)
    (packageFile : Descriptor) (before after : List ScriptEntry) (filename : String)
    (defaultSchema : JsVal) (scriptContents : String) (convert : Transform)
    (hScripts : explodeManifestScripts w options =
      .scripts packageFile (before ++ .path filename :: after) defaultSchema)
    (hBefore : ∀ entry ∈ before, ∃ sql rest,
      getScriptSql w (path.dirname options.manifestFilename) defaultSchema entry = .ok sql :: rest)
    (hRead : w.readFile (path.join [path.dirname options.manifestFilename, filename]) =
      .ok scriptContents)
    (hConvert : w.conversionMap
      (substring1 (path.extname (path.join [path.dirname options.manifestFilename, filename]))) =
        some convert)
    (hEnd : lastCharIs (jsTrim (convert scriptContents
      (path.join [path.dirname options.manifestFilename, filename]) defaultSchema)) ';' = false) :
    (getScriptSql w (path.dirname options.manifestFilename) defaultSchema (.path filename)).head? =
      some (.error ("Error: " ++ path.join [path.dirname options.manifestFilename, filename] ++
        " contents do not end in a semicolon.")) ∧
    explodeManifest w options =
      some (.error ("Error: " ++ path.join [path.dirname options.manifestFilename, filename] ++
        " contents do not end in a semicolon.")) := by
  have hHead : (getScriptSql w (path.dirname options.manifestFilename) defaultSchema
      (.path filename)).head? =
      some (.error ("Error: " ++ path.join [path.dirname options.manifestFilename, filename] ++
        " contents do not end in a semicolon.")) := by
    simp [getScriptSql, existsSync_of_readFile hRead, hRead, hConvert, hEnd]
  refine ⟨hHead, ?_⟩
  simp [explodeManifest, hScripts, mapSeries_first_error _ before after _ _ hBefore hHead]


set_option maxRecDepth 100000 in
/-- C5 on the manifest `broken`, whose second script is `select 2` without a semicolon. -/
theorem explodeManifest_missing_semicolon_witness :
    lastCharIs (jsTrim "select 2\n") ';' = false ∧
    explodeManifest exampleWorld (plainOptions "broken/manifest.js") =
      some (.error "Error: broken/noend.sql contents do not end in a semicolon.") :=
  ⟨by decide,
    (explodeManifest_missing_semicolon exampleWorld (plainOptions "broken/manifest.js")
      { emptyDescriptor with
        databaseScripts := some [.path "a.sql", .path "noend.sql", .path "b.sql"] }
      [.path "a.sql"] [.path "b.sql"] "noend.sql" .undefined "select 2\n" (fun text _ _ => text)
      rfl
      (by
        intro entry hEntry
        simp only [List.mem_singleton] at hEntry
        subst hEntry
        exact ⟨_, _, rfl⟩)
      rfl rfl rfl).2⟩

set_option maxRecDepth 100000 in
/-- C6 fails on the code: for the script `noend.sql`, whose text does not end in `;`,
`getScriptSql` invokes the script callback twice, with the error and then with the
script text as a result. -/
theorem getScriptSql_calls_back_twice :
    getScriptSql exampleWorld "broken" .undefined (.path "noend.sql") =
      [.error "Error: broken/noend.sql contents do not end in a semicolon.",
       .ok "\nselect 2"] ∧
    (getScriptSql exampleWorld "broken" .undefined (.path "noend.sql")).length = 2 :=
  ⟨rfl, rfl⟩

/-- C7: with a source path, `initDatabase` runs drop, create, `buildSchema` and
`populateData` in that order, each only when the one before succeeded; the first failing
step ends the run and its error goes to the caller. In particular a failing
`buildSchema` leaves `populateData` unissued. -/
theorem initDatabase_from_source (ext : External) (spec : BuildSpec) (creds : Creds)
    (hSource : optTruthy spec.source = true) :
    (∀ err, ext.query (dropDatabaseSql spec.database) (maintenanceCreds creds) = .error err →
      (initDatabase ext spec creds).issued =
        [.query (dropDatabaseSql spec.database) (maintenanceCreds creds)] ∧
      (initDatabase ext spec creds).outcome = .error err) ∧
    ((∃ res, ext.query (dropDatabaseSql spec.database) (maintenanceCreds creds) = .ok res) →
      ∀ err, ext.query (createDatabaseSql spec.database) (maintenanceCreds creds) = .error err →
      (initDatabase ext spec creds).issued =
        [.query (dropDatabaseSql spec.database) (maintenanceCreds creds),
         .query (createDatabaseSql spec.database) (maintenanceCreds creds)] ∧
      (initDatabase ext spec creds).outcome = .error err) ∧
    ((∃ res, ext.query (dropDatabaseSql spec.database) (maintenanceCreds creds) = .ok res) →
      (∃ res, ext.query (createDatabaseSql spec.database) (maintenanceCreds creds) = .ok res) →
      ∀ err, (ext.exec (buildSchemaCommand spec creds spec.database)).err = some err →
      (initDatabase ext spec creds).issued =
        [.query (dropDatabaseSql spec.database) (maintenanceCreds creds),
         .query (createDatabaseSql spec.database) (maintenanceCreds creds),
         .exec (buildSchemaCommand spec creds spec.database)] ∧
      (initDatabase ext spec creds).outcome = .error err) ∧
    ((∃ res, ext.query (dropDatabaseSql spec.database) (maintenanceCreds creds) = .ok res) →
      (∃ res, ext.query (createDatabaseSql spec.database) (maintenanceCreds creds) = .ok res) →
      (ext.exec (buildSchemaCommand spec creds spec.database)).err = none →
      (initDatabase ext spec creds).issued =
        [.query (dropDatabaseSql spec.database) (maintenanceCreds creds),
         .query (createDatabaseSql spec.database) (maintenanceCreds creds),
         .exec (buildSchemaCommand spec creds spec.database),
         .exec (populateDataCommand spec creds spec.database)] ∧
      (initDatabase ext spec creds).outcome =
        match (ext.exec (populateDataCommand spec creds spec.database)).err with
        | some err => .error err
        | none => .ok [
            (ext.query (dropDatabaseSql spec.database) (maintenanceCreds creds)).toOption,
            (ext.query (createDatabaseSql spec.database) (maintenanceCreds creds)).toOption,
            some (ext.exec (buildSchemaCommand spec creds spec.database)).stdout,
            some (ext.exec (populateDataCommand spec creds spec.database)).stdout]) := by
  refine ⟨?_, ?_, ?_, ?_⟩
  · intro err h
    simp [initDatabase, hSource, series, dropDatabase, maintenanceCreds, jsonClone] at h ⊢
    simp [h, Except.map]
  · rintro ⟨r1, h1⟩ err h2
    simp [initDatabase, hSource, series, dropDatabase, createDatabase, maintenanceCreds, jsonClone] at h1 h2 ⊢
    simp [h1, h2, Except.map]
  · rintro ⟨r1, h1⟩ ⟨r2, h2⟩ err h3
    simp [initDatabase, hSource, series, dropDatabase, createDatabase, buildSchema, execTask,
      maintenanceCreds, jsonClone] at h1 h2 h3 ⊢
    simp [h1, h2, h3, Except.map]
  · rintro ⟨r1, h1⟩ ⟨r2, h2⟩ h3
    simp [initDatabase, hSource, series, dropDatabase, createDatabase, buildSchema, execTask,
      populateData, maintenanceCreds, jsonClone] at h1 h2 h3 ⊢
    simp [h1, h2, h3, Except.map]
    cases h4 : (ext.exec (populateDataCommand spec creds spec.database)).err <;>
      simp [h4, Except.toOption]


set_option maxRecDepth 100000 in
/-- C7 with a failing `buildSchema`: three calls are made and the error is reported. -/
theorem initDatabase_from_source_witness :
    optTruthy sourceSpec.source = true ∧
    (initDatabase failingProcesses sourceSpec exampleCreds).issued =
      [.query "drop database if exists demo;" (maintenanceCreds exampleCreds),
       .query "create database demo template template1;" (maintenanceCreds exampleCreds),
       .exec ("psql -U admin -h localhost --single-transaction -p 5432 -d demo" ++
         " -f foundation-database/440_schema.sql")] ∧
    (initDatabase failingProcesses sourceSpec exampleCreds).outcome = .error "Command failed" :=
  ⟨rfl, (initDatabase_from_source failingProcesses sourceSpec exampleCreds rfl).2.2.1
    ⟨_, rfl⟩ ⟨_, rfl⟩ "Command failed" rfl⟩

/-- C8: without a source path, once drop and create succeeded, `initDatabase` issues the
restore and then inspects the target database whatever the restore reports, gives the
caller no error, and leaves in `spec.extensions` the list `inspectDatabaseExtensions`
returned. -/
theorem initDatabase_from_backup (ext : External) (spec : BuildSpec) (creds : Creds)
    (hSource : optTruthy spec.source = false)
    (hDrop : ∃ res, ext.query (dropDatabaseSql spec.database) (maintenanceCreds creds) = .ok res)
    (hCreate : ∃ res,
      ext.query (createDatabaseSql spec.database) (maintenanceCreds creds) = .ok res) :
    (initDatabase ext spec creds).issued =
      [.query (dropDatabaseSql spec.database) (maintenanceCreds creds),
       .query (createDatabaseSql spec.database) (maintenanceCreds creds),
       .exec (restoreBackupCommand ext spec creds spec.database),
       .inspect (targetCreds creds spec.database)] ∧
    (∃ results, (initDatabase ext spec creds).outcome = .ok results) ∧
    (initDatabase ext spec creds).spec.extensions =
      (ext.inspectDatabaseExtensions (targetCreds creds spec.database)).2 := by
  obtain ⟨r1, h1⟩ := hDrop
  obtain ⟨r2, h2⟩ := hCreate
  simp [initDatabase, hSource, series, dropDatabase, createDatabase, restoreBackup,
    inspectExtensions, maintenanceCreds, targetCreds, jsonClone] at h1 h2 ⊢
  simp [h1, h2, Except.map]


/-- C8 with a failing restore. -/
theorem initDatabase_from_backup_witness :
    (failingProcesses.exec
      (restoreBackupCommand failingProcesses backupSpec exampleCreds backupSpec.database)).err =
        some "Command failed" ∧
    (initDatabase failingProcesses backupSpec exampleCreds).spec.extensions =
      some ["lib/orm", "inventory"] :=
  ⟨rfl, (initDatabase_from_backup failingProcesses backupSpec exampleCreds rfl
    ⟨_, rfl⟩ ⟨_, rfl⟩).2.2⟩


/-- C9: the extension name is the final segment of `specs[0].extensions[0]`, trailing
separators removed; the six statements delete from usrext, grpext, clientcode, dict,
extdep, ext in that order; the caller's credentials object is unchanged; for every spec
the queries issued are an initial part of the six statements, each one issued only when
all before it succeeded, sent to the database of the spec with parameters `[name]`; and
they are all six when all succeed. -/
theorem unregister_six_deletes (ext : External) (first : BuildSpec) (others : List BuildSpec)
    (heap : Heap) (creds : Nat) (location : String) (locations : List String)
    (hCreds : creds < heap.next)
    (hLocation : first.extensions = some (location :: locations)) :
    ∃ r, unregister ext (first :: others) heap creds = some r ∧
      ('/' ∉ r.extension.data ∧
        (stripTrailingSeparators location = r.extension.data ∨
          ∃ before, stripTrailingSeparators location = before ++ '/' :: r.extension.data)) ∧
      unregisterSql.map leadingWords =
        [["delete", "from", "xt.usrext"], ["delete", "from", "xt.grpext"],
         ["delete", "from", "xt.clientcode"], ["delete", "from", "xt.dict"],
         ["delete", "from", "xt.extdep"], ["delete", "from", "xt.ext"]] ∧
      r.heap.objects creds = heap.objects creds ∧
      r.perSpec.length = (first :: others).length ∧
      ∀ (i : Nat) (spec : BuildSpec), (first :: others)[i]? = some spec →
        (∃ n, r.perSpec[i]?.map Prod.fst = some ((unregisterSql.take (n + 1)).map (fun sql =>
            Command.query sql (unregisterCreds (heap.objects creds) r.extension spec))) ∧
          ∀ sql ∈ unregisterSql.take n, ∃ res,
            ext.query sql (unregisterCreds (heap.objects creds) r.extension spec) = .ok res) ∧
        ((∀ sql ∈ unregisterSql, ∃ res,
            ext.query sql (unregisterCreds (heap.objects creds) r.extension spec) = .ok res) →
          r.perSpec[i]? = some (unregisterSql.map (fun sql =>
            Command.query sql (unregisterCreds (heap.objects creds) r.extension spec)),
            none)) := by
  obtain ⟨hHeap, hEach⟩ :=
    each_unregisterEach ext (extensionName location) creds (first :: others) heap hCreds
  refine ⟨{ extension := extensionName location,
             perSpec := (each (unregisterEach ext (extensionName location) creds) heap
               (first :: others)).2,
             heap := (each (unregisterEach ext (extensionName location) creds) heap
               (first :: others)).1,
             failed := (each (unregisterEach ext (extensionName location) creds) heap
               (first :: others)).2.any (fun r => r.2.isSome) },
    by simp only [unregister, hLocation], ?_, by decide, hHeap, ?_, ?_⟩
  · rw [extensionName_eq_basename]
    exact ⟨basename_no_separator location, basename_final_segment location⟩
  · simp only [hEach, List.length_map]
  · intro i spec hi
    simp only [hEach, List.getElem?_map, hi, Option.map_some', unregisterCreds]
    refine ⟨?_, ?_⟩
    · obtain ⟨n, h1, h2⟩ := eachSeries_issued
        (fun sql => ext.query sql { heap.objects creds with
          database := spec.database, parameters := some [extensionName location] })
        unregisterSql
      exact ⟨n, by rw [h1], h2⟩
    · intro hall
      rw [eachSeries_all_ok _ unregisterSql hall]

set_option maxRecDepth 100000 in
/-- C9 on two specs for `../ext/inventory/`: the name is `inventory` and the credentials
at address 0 are unchanged. -/
theorem unregister_six_deletes_witness :
    ∃ r, unregister healthy [devSpec, prodSpec] exampleHeap 0 = some r ∧
      r.extension = "inventory" ∧ r.heap.objects 0 = exampleCreds ∧ r.perSpec.length = 2 := by
  obtain ⟨r, hr, _, _, hHeap, hLength, _⟩ :=
    unregister_six_deletes healthy devSpec [prodSpec] exampleHeap 0
      "../ext/inventory/" [] (by decide) rfl
  have hName : (unregister healthy [devSpec, prodSpec] exampleHeap 0).map (fun r => r.extension) =
      some "inventory" := by decide
  refine ⟨r, hr, ?_, hHeap, hLength⟩
  have hr2 : unregister healthy [devSpec, prodSpec] exampleHeap 0 = some r := hr
  rw [hr2] at hName
  simpa using hName

set_option maxRecDepth 100000 in
/-- C10 fails on the code: with `keepSql` false and a failing `psql`, the callback is
given the error and the temporary file, absent before, is still there with the query. -/
theorem sendToDatabase_keeps_file_on_failure :
    tempQueryFilename exampleWorld exampleCreds = "/xtuple/scripts/lib/temp_query_dev.sql" ∧
    exampleWorld.existsSync "/xtuple/scripts/lib/temp_query_dev.sql" = false ∧
    (sendToDatabase exampleWorld failingProcesses "select 1;" exampleCreds false).calls =
      [some "Command failed"] ∧
    (sendToDatabase exampleWorld failingProcesses "select 1;" exampleCreds false).files
      "/xtuple/scripts/lib/temp_query_dev.sql" = .content "select 1;" :=
  ⟨by decide, by decide, rfl, rfl⟩

set_option maxRecDepth 100000 in
/-- C11 fails on the code: for the descriptor `inventory` the registration text holds the
grant, dependency and registration statements only; the notice "About to register
extension inventory", assigned to `registerSql` first, is overwritten and is not in it. -/
theorem getRegistrationSql_no_notice :
    getRegistrationSql exampleDescriptor (.str "/ext") =
      "select xt.register_extension_dependency('inventory', 'sales');\n" ++
      "select xt.grant_role_ext('ADMIN', 'sales');\n" ++
      "select xt.register_extension_dependency('inventory', 'crm');\n" ++
      "select xt.grant_role_ext('ADMIN', 'crm');\n" ++
      "select xt.grant_role_ext('ADMIN', 'inventory');\n" ++
      "select xt.register_extension('inventory', 'Inventory', '/ext', '', 9999);\n" ∧
    registerNoticeSql exampleDescriptor =
      "do $$ plv8.elog(NOTICE, \"About to register extension inventory\"); $$ language plv8;\n" ∧
    containsChars "About to register extension".data
      (getRegistrationSql exampleDescriptor (.str "/ext")).data = false :=
  ⟨by decide, by decide, by decide⟩

set_option maxRecDepth 100000 in
/-- C12, as stated, fails: with both options set and a source root outside
`foundation-database`, a frozen manifest whose scripts sit in a nested list is not
flattened before the paths are rewritten; the nested list becomes one path. -/
theorem explodeManifest_nested_frozen_scripts :
    indexOfNegative (path.dirname (frozenOptions "mixed/database/source/manifest.js").manifestFilename)
      "foundation-database" = true ∧
    ∃ packageFile scripts defaultSchema,
      explodeManifestScripts frozenWorld (frozenOptions "mixed/database/source/manifest.js") =
        .scripts packageFile scripts defaultSchema ∧
      scripts = [.path "../../foundation-database/z1.sql,z2.sql",
        .path "../../foundation-database/f1.sql", .path "../../foundation-database/f2.sql",
        .path "a.sql", .path "b.sql"] ∧
      scripts ≠
        (((flatten [.list [.path "z1.sql", .path "z2.sql"]]).map
            (fun p => "../../foundation-database/" ++ p)) ++
          (((flatten [.path "f1.sql", .path "f2.sql"]).map
            (fun p => "../../foundation-database/" ++ p)) ++
          flatten [.path "a.sql", .path "b.sql"])).map .path :=
  ⟨by decide, _, [.path "../../foundation-database/z1.sql,z2.sql",
      .path "../../foundation-database/f1.sql", .path "../../foundation-database/f2.sql",
      .path "a.sql", .path "b.sql"], _, rfl, rfl, by simp [flatten, ScriptEntry.flatten]⟩

/-- C12, amended: with `useFoundationScripts` and `useFrozenScripts` set, a source root
whose path does not contain "foundation-database", and frozen and foundation manifests
whose `databaseScripts` are flat lists of paths, the scripts compiled are the frozen
paths, then the foundation paths, each after "../../foundation-database/", then the
flattened scripts of the current manifest, each group in its order; the schema handed to
the transforms is the first one present among the current, the foundation and the frozen
manifest. -/
theorem explodeManifest_frozen_and_foundation_scripts (w : World) (options : Options)
    (packageJson : Option Descriptor) (manifest foundation frozen : Descriptor)
    (manifestString foundationString frozenString : String) (ownScripts : List ScriptEntry)
    (foundationPaths frozenPaths : List String)
    (hFoundation : options.useFoundationScripts = true)
    (hFrozen : options.useFrozenScripts = true)
    (hRoot : indexOfNegative (path.dirname options.manifestFilename) "foundation-database" = true)
    (hPackage : loadPackageJson w options = some packageJson)
    (hRead : w.readFile options.manifestFilename = .ok manifestString)
    (hParse : w.parseJson manifestString = .value manifest)
    (hOwn : manifest.databaseScripts = some ownScripts)
    (hReadF : w.readFile (path.join [path.dirname options.manifestFilename,
      "../../foundation-database/manifest.js"]) = .ok foundationString)
    (hParseF : w.parseJson foundationString = .value foundation)
    (hFlatF : foundation.databaseScripts = some (foundationPaths.map .path))
    (hReadZ : w.readFile (path.join [path.dirname options.manifestFilename,
      "../../foundation-database/frozen_manifest.js"]) = .ok frozenString)
    (hParseZ : w.parseJson frozenString = .value frozen)
    (hFlatZ : frozen.databaseScripts = some (frozenPaths.map .path)) :
    explodeManifestScripts w options =
      .scripts (packageJson.getD manifest)
        ((frozenPaths.map (fun p => "../../foundation-database/" ++ p) ++
          (foundationPaths.map (fun p => "../../foundation-database/" ++ p) ++
            flatten ownScripts)).map .path)
        ((manifest.defaultSchema.or foundation.defaultSchema).or frozen.defaultSchema) := by
  have hEx := existsSync_of_readFile hRead
  simp [explodeManifestScripts, hPackage, hEx, hRead, hParse, hFoundation, hFrozen, hRoot,
    useFoundationScripts, useFrozenScripts, World.readManifestSync, hReadF, hParseF, hReadZ,
    hParseZ, hOwn, hFlatF, hFlatZ, flatten_map_alterPath, flatten_map_path, flatten,
    ScriptEntry.flatten, flatten_append, flatten_map_path_comp]

set_option maxRecDepth 100000 in
/-- The amended C12 on the tree `both`. -/
theorem explodeManifest_frozen_and_foundation_scripts_witness :
    indexOfNegative (path.dirname (frozenOptions "both/database/source/manifest.js").manifestFilename)
      "foundation-database" = true ∧
    explodeManifestScripts frozenWorld (frozenOptions "both/database/source/manifest.js") =
      .scripts inventoryManifest
        [.path "../../foundation-database/z1.sql", .path "../../foundation-database/z2.sql",
          .path "../../foundation-database/f1.sql", .path "../../foundation-database/f2.sql",
          .path "a.sql", .path "b.sql"]
        (.str "public") :=
  ⟨by decide, explodeManifest_frozen_and_foundation_scripts frozenWorld
    (frozenOptions "both/database/source/manifest.js") none inventoryManifest flatFoundation
    flatFrozen inventoryManifestText flatFoundationText flatFrozenText
    [.path "a.sql", .path "b.sql"] ["f1.sql", "f2.sql"] ["z1.sql", "z2.sql"]
    rfl rfl (by decide) rfl rfl rfl rfl rfl rfl rfl rfl rfl rfl⟩

end BuildDatabaseUtil
